import Mathlib

/-
Verification of the exchange-matching engine of the secretos repository.

The repository contains the current engine (src/server.js) and five earlier
revisions of the same engine concatenated in src/unnamed/part_000.  All of
them keep the submitted items in one table named secrets and select a match
with a single SQL query of the shape

  SELECT ... WHERE <eligibility> ORDER BY created_at ASC LIMIT 1

over that table.  The embedding below models the table as the list of rows
in insertion order (ids are assigned by BIGSERIAL / AUTOINCREMENT, so the
insertion order agrees with the id order, which the data-model invariant of
the specification also records).  The query returns a row satisfying the
WHERE predicate that attains the least created_at among such rows; neither
Postgres nor SQLite specifies which row is returned when several share the
least created_at, which the relation mayReturnOldest expresses, while the
function selectOldest fixes one permitted outcome (the first such row in
insertion order) for the claims whose statements do not depend on the
choice among ties.  Timestamps are integers counting seconds, ids are
integers, and the NULL-able author_hash column is an Option.  A single
invocation running without interference is modelled as a pure step on the
table; none of the claim-once revisions makes the claim safe under
concurrency (the SQLite revisions issue their SELECT and their claiming
UPDATE as two separate statements, and the Postgres CTE claim statement
re-evaluates only its join qualifier on a concurrently updated row under
READ COMMITTED), which claim C2 records.
-/

namespace Secretos

/-- One row of the secrets table.  The claimed and claimedBy columns exist
only in the claim-once revisions and the authorHash column only in the
current engine; the permanent revisions simply never read them. -/
structure Row where
  id : Int
  sessionId : String
  authorHash : Option String
  createdAt : Int
  claimed : Bool
  claimedBy : Option String
  textContent : Option String
  deriving DecidableEq

/-- The secrets table, as the list of rows in insertion order. -/
abbrev Store := List Row

/-- SQL IS DISTINCT FROM on the nullable author_hash column: NULL is
distinct from every non-NULL value and not distinct from NULL. -/
def isDistinctFrom : Option String → Option String → Bool
  | none, none => false
  | none, some _ => true
  | some _, none => true
  | some a, some b => a != b

/-- Keep the older of a candidate row and an optional previously found row;
on equal timestamps the previously scanned (earlier) row is kept, which is
one of the outcomes the databases permit for ORDER BY created_at ASC. -/
def olderOpt (c : Row) : Option Row → Row
  | some r => if r.createdAt < c.createdAt then r else c
  | none => c

/-- SELECT * FROM secrets WHERE p ORDER BY created_at ASC LIMIT 1 over the
insertion-ordered list, resolving ties among equal created_at to the first
row in insertion order.  The databases leave the choice among equal sort
keys unspecified, so this function fixes one permitted outcome and is used
only in claims whose statements do not depend on which tied row is chosen;
the relation mayReturnOldest below captures the whole set of rows the query
may return. -/
def selectOldest (p : Row → Bool) : List Row → Option Row
  | [] => none
  | c :: rest =>
    if p c then some (olderOpt c (selectOldest p rest))
    else selectOldest p rest

/-- The set of rows that SELECT ... WHERE p ORDER BY created_at ASC LIMIT 1
may return: any row satisfying p whose created_at is least among the rows
satisfying p.  With no further sort key the databases guarantee nothing
about the choice among rows sharing the least created_at, so every member
of this set is a possible result of the query. -/
def mayReturnOldest (p : Row → Bool) (l : List Row) (r : Row) : Prop :=
  r ∈ l.filter p ∧ ∀ c ∈ l.filter p, r.createdAt ≤ c.createdAt

instance mayReturnOldestDecidable (p : Row → Bool) (l : List Row) (r : Row) :
    Decidable (mayReturnOldest p l r) :=
  inferInstanceAs (Decidable (r ∈ l.filter p ∧ ∀ c ∈ l.filter p, r.createdAt ≤ c.createdAt))

/- ===== Current engine: src/server.js ===== -/

/-- The WHERE clause of getExchangeSecret in src/server.js lines 126 to 135:
id <> excludeId, session_id <> excludeSessionId, author_hash IS DISTINCT
FROM authorHash, created_at older than three seconds before now. -/
def serverEligible (exId : Int) (sid aHash : String) (now : Int) (c : Row) : Bool :=
  (c.id != exId) && (c.sessionId != sid) && isDistinctFrom c.authorHash (some aHash)
    && decide (c.createdAt < now - 3)

/-- getExchangeSecret of src/server.js lines 125 to 138: a pure SELECT under
the permanent policy, no row is marked. -/
def getExchangeSecret (store : Store) (exId : Int) (sid aHash : String) (now : Int) : Option Row :=
  selectOldest (serverEligible exId sid aHash now) store

/-- The WHERE clause of the poll query in src/server.js lines 223 to 231:
as serverEligible but with no excluded id. -/
def pollEligible (sid aHash : String) (now : Int) (c : Row) : Bool :=
  (c.sessionId != sid) && isDistinctFrom c.authorHash (some aHash)
    && decide (c.createdAt < now - 3)

/-- The handler of GET /api/secrets/one in src/server.js lines 219 to 239,
as a state transformer on the table.  The handler body issues a single
SELECT, so the table is returned unchanged; the substance of the embedding
is which row is read. -/
def pollOne (store : Store) (sid aHash : String) (now : Int) : Option Row × Store :=
  (selectOldest (pollEligible sid aHash now) store, store)

/- ===== Revision 1 (part_000 lines 101 to 112): permanent policy,
   session exclusion only, no grace window ===== -/

/-- getExchangeSecret of the first revision: WHERE id <> excludeId AND
session_id <> excludeSessionId, pure SELECT. -/
def getExchangeSecretV1 (store : Store) (exId : Int) (sid : String) : Option Row :=
  selectOldest (fun c => (c.id != exId) && (c.sessionId != sid)) store

/- ===== Revision 2 (part_000 lines 324 to 365): SQLite claim-once with a
   same-session fallback; SELECT and UPDATE are separate statements ===== -/

/-- The first db.get of the SQLite revision: claimed = 0, id distinct from
the excluded id, session distinct from the callers session. -/
def sqliteGetOther (store : Store) (exId : Int) (sid : String) : Option Row :=
  selectOldest (fun c => !c.claimed && (c.id != exId) && (c.sessionId != sid)) store

/-- The fallback db.get of the SQLite revision: claimed = 0 and id distinct
from the excluded id; the callers own earlier rows are allowed. -/
def sqliteGetAny (store : Store) (exId : Int) : Option Row :=
  selectOldest (fun c => !c.claimed && (c.id != exId)) store

/-- UPDATE secrets SET claimed = 1, claimed_by = sid WHERE id = rid.  Note
that the source statement has no claimed = 0 guard. -/
def markClaimed (store : Store) (rid : Int) (sid : String) : Store :=
  store.map fun c => if c.id = rid then { c with claimed := true, claimedBy := some sid } else c

/-- The whole SQLite getExchangeSecret run without interference: get from
another session, else get from any session, then mark the found row.  The
two db statements of one invocation are modelled individually above so that
interleavings of concurrent invocations can also be expressed. -/
def getExchangeSecretV2 (store : Store) (exId : Int) (sid : String) : Option Row × Store :=
  match sqliteGetOther store exId sid with
  | some row => (some row, markClaimed store row.id sid)
  | none =>
    match sqliteGetAny store exId with
    | some row => (some row, markClaimed store row.id sid)
    | none => (none, store)

/- ===== Revision 3 (part_000 lines 552 to 573): SQLite claim-once,
   ORDER BY RANDOM() LIMIT 1 ===== -/

/-- The db.get of getAvailableSecret: claimed = 0 AND session_id distinct
from the callers session, ORDER BY RANDOM() LIMIT 1.  The random choice is
modelled by an arbitrary index k into the set of admissible rows, so any
theorem quantified over k covers every outcome of the random pick. -/
def getAvailableSecret (store : Store) (sid : String) (k : Nat) : Option Row :=
  (store.filter fun c => !c.claimed && (c.sessionId != sid)).get? k

/- ===== Revisions 4 and 5 (part_000 lines 764 to 807 and 1080 to 1120):
   Postgres claim-once, one atomic CTE UPDATE ... RETURNING ===== -/

/-- The claim statement WITH pick AS (SELECT id ... WHERE claimed = FALSE
AND id <> exId AND session_id <> sid ORDER BY created_at ASC LIMIT 1)
UPDATE ... SET claimed = TRUE, claimed_by = sid ... RETURNING the updated
row, modelled as the effect of one invocation running without interference.
Being one SQL statement does not make it safe under concurrency: at READ
COMMITTED the claimed = FALSE test lives only inside the CTE and is not
re-evaluated when the picked row was updated meanwhile; only the join
qualifier of the UPDATE is (epqJoinQual below), which claim C2 records. -/
def atomicClaimOther (store : Store) (exId : Int) (sid : String) : Option Row × Store :=
  match selectOldest (fun c => !c.claimed && (c.id != exId) && (c.sessionId != sid)) store with
  | none => (none, store)
  | some r => (some { r with claimed := true, claimedBy := some sid }, markClaimed store r.id sid)

/-- The fallback claim statement of revision 4: as atomicClaimOther but
without the session exclusion. -/
def atomicClaimAny (store : Store) (exId : Int) (sid : String) : Option Row × Store :=
  match selectOldest (fun c => !c.claimed && (c.id != exId)) store with
  | none => (none, store)
  | some r => (some { r with claimed := true, claimedBy := some sid }, markClaimed store r.id sid)

/-- getExchangeSecret of revision 4: try another session first, else fall
back to any session other than the excluded id. -/
def getExchangeSecretV4 (store : Store) (exId : Int) (sid : String) : Option Row × Store :=
  match atomicClaimOther store exId sid with
  | (some row, marked) => (some row, marked)
  | (none, _) => atomicClaimAny store exId sid

/-- The defensive re-check of revision 5 (part_000 lines 1108 to 1117) as
the specification describes it: a claimed row equal to the excluded id or
to the callers session is discarded and replaced by the no-match result.
The source does not implement the id half: it compares row.id === exId
between the int8 column, which the node-postgres driver delivers as a
decimal string (the routes convert it with Number where they need the
value), and the javascript number exId, and strict equality across those
two runtime types is always false; v5RecheckJs below renders that actual
behaviour.  On every row the claim statement can produce the two readings
agree, because its WHERE clause already excludes the id and the session. -/
def v5Recheck (exId : Int) (sid : String) (row : Row) : Option Row :=
  if row.id = exId then none
  else if row.sessionId = sid then none
  else some row

/-- A javascript runtime value as it occurs in the re-check comparison:
either a string or a number. -/
inductive JsValue where
  | str (s : String)
  | num (n : Int)
  deriving DecidableEq

/-- Javascript strict equality: no coercion is performed, so operands of
distinct runtime types compare unequal whatever their values. -/
def jsStrictEq : JsValue → JsValue → Bool
  | .str a, .str b => a == b
  | .num a, .num b => a == b
  | _, _ => false

/-- The id column of a row as the node-postgres driver hands it to the
route: the int8 value rendered as its decimal string. -/
def pgInt8String (n : Int) : String := toString n

/-- The defensive re-check as the source executes it (part_000 lines 1108
to 1117): row.id is the driver string, exId the javascript number, and both
comparisons are strict equality. -/
def v5RecheckJs (exId : Int) (sid : String) (row : Row) : Option Row :=
  if jsStrictEq (.str (pgInt8String row.id)) (.num exId) then none
  else if jsStrictEq (.str row.sessionId) (.str sid) then none
  else some row

/-- getExchangeSecret of revision 5 (part_000 lines 1080 to 1120): the
claim statement of one invocation running without interference, followed by
the defensive re-check in its specification reading; on every row the claim
statement can produce the two readings of the re-check agree, so this
composition is faithful for such runs.  When the re-check discards the row
the table keeps the already applied update, which matches the source, where
the UPDATE has committed before the check runs. -/
def getExchangeSecretV5 (store : Store) (exId : Int) (sid : String) : Option Row × Store :=
  match atomicClaimOther store exId sid with
  | (none, after) => (none, after)
  | (some row, after) => (v5Recheck exId sid row, after)

/-- The SELECT inside the CTE pick of the claim statement of revisions 4
and 5, evaluated against the snapshot the executing statement took.  Under
READ COMMITTED each concurrent execution evaluates the pick against its own
snapshot, taken before it blocks on any row lock. -/
def ctePick (store : Store) (exId : Int) (sid : String) : Option Row :=
  selectOldest (fun c => !c.claimed && (c.id != exId) && (c.sessionId != sid)) store

/-- The only condition the EvalPlanQual mechanism re-evaluates on the new
version of a concurrently updated row before the blocked claim statement
proceeds: the join qualifier s.id = pick.id of the UPDATE.  The claimed =
FALSE test lives inside the CTE and is not re-evaluated. -/
def epqJoinQual (pickId : Int) (row : Row) : Bool := row.id == pickId

/- ===== Text submission (src/server.js lines 152 to 185) ===== -/

/-- The characters removed by the trim call on the submitted text: the
ecmascript WhiteSpace and LineTerminator sets, that is tab, line feed,
vertical tab, form feed, carriage return, space, no-break space, the
Unicode space separators (0x1680, 0x2000 to 0x200A, 0x202F, 0x205F,
0x3000), the line and paragraph separators 0x2028 and 0x2029, and the
zero width no-break space 0xFEFF. -/
def isJsWhitespace (c : Char) : Bool :=
  (c.toNat == 9) || (c.toNat == 10) || (c.toNat == 11) || (c.toNat == 12) ||
  (c.toNat == 13) || (c.toNat == 32) || (c.toNat == 0xA0) || (c.toNat == 0x1680) ||
  (decide (0x2000 ≤ c.toNat) && decide (c.toNat ≤ 0x200A)) ||
  (c.toNat == 0x2028) || (c.toNat == 0x2029) || (c.toNat == 0x202F) ||
  (c.toNat == 0x205F) || (c.toNat == 0x3000) || (c.toNat == 0xFEFF)

/-- The trim applied to the submitted text before validation: leading and
trailing whitespace is removed. -/
def jsTrim (s : String) : String :=
  String.mk (((s.data.dropWhile isJsWhitespace).reverse.dropWhile isJsWhitespace).reverse)

/-- The number of UTF-16 code units of one character, which is what the
javascript length property counts: a code point above 0xFFFF occupies a
surrogate pair, hence two units. -/
def utf16Len (c : Char) : Nat := if c.toNat < 0x10000 then 1 else 2

/-- The javascript length of a string: its count of UTF-16 code units. -/
def jsLength (s : String) : Nat := (s.data.map utf16Len).sum

/-- Outcome of POST /api/secrets/text: the length bound rejection, the
content policy rejection, or acceptance carrying the exchanged match. -/
inductive TextSubmitOutcome where
  | lengthError
  | policyError
  | accepted (matched : Option Row)
  deriving DecidableEq

/-- The text submission route of src/server.js: trim, reject when empty or
when the javascript length (UTF-16 code units) of the trimmed text is below
5 or above 1000, reject when the pluggable content policy flags the text,
otherwise insert the row and run getExchangeSecret with the fresh id
excluded.  The content policy predicate is the injected ContentValidator of
the specification. -/
def submitText (policy : String → Bool) (store : Store) (raw : String)
    (newId : Int) (sid aHash : String) (now : Int) : TextSubmitOutcome × Store :=
  let t := jsTrim raw
  if t = "" ∨ jsLength t < 5 ∨ jsLength t > 1000 then (.lengthError, store)
  else if policy t then (.policyError, store)
  else
    let newRow : Row := { id := newId, sessionId := sid, authorHash := some aHash,
                          createdAt := now, claimed := false, claimedBy := none,
                          textContent := some t }
    (.accepted (getExchangeSecret (store ++ [newRow]) newId sid aHash now), store ++ [newRow])

/- ===== Author fingerprint (src/server.js lines 116 to 122) ===== -/

/-- The javascript operator that replaces a missing or empty string by the
given default, as used to read the request headers. -/
def jsStrOr (o : Option String) (d : String) : String :=
  match o with
  | none => d
  | some s => if s = "" then d else s

/-- Models the sha256 hex digest of the node crypto library, an external
collaborator of the engine: a deterministic total function producing
exactly 64 hexadecimal characters.  The concrete compression is abstracted;
determinism, totality and the fixed output width are the parts of the
library contract the engine relies on. -/
def sha256Hex (s : String) : String :=
  let n : Nat := s.data.foldl (fun acc c => (acc * 131 + c.toNat) % 2 ^ 256) 7
  String.mk ((List.range 64).map fun i => Nat.digitChar (n / 16 ^ i % 16))

/-- The weak identity signals of one request: the forwarded-for header, the
transport address and the user agent header, each possibly absent. -/
structure ReqSignals where
  xForwardedFor : Option String
  ip : Option String
  userAgent : Option String
  deriving DecidableEq

/-- authorFingerprint of src/server.js: ip falls back from the forwarded
header to the transport address to the empty string, the user agent falls
back to the empty string, the salt falls back to the built-in default, and
the three are joined and digested. -/
def authorFingerprint (envSalt : Option String) (sig : ReqSignals) : String :=
  let ip := jsStrOr sig.xForwardedFor (jsStrOr sig.ip ("") )
  let ua := jsStrOr sig.userAgent ("")
  let salt := jsStrOr envSalt ("default_salt_change_me")
  sha256Hex (ip ++ "|" ++ ua ++ "|" ++ salt)

/- ===== Lemmas about the stable oldest-row scan ===== -/

theorem selectOldest_spec {p : Row → Bool} :
    ∀ {l : List Row} {r : Row}, selectOldest p l = some r → r ∈ l ∧ p r = true := by
  intro l
  induction l with
  | nil => intro r h; simp [selectOldest] at h
  | cons a rest ih =>
    intro r h
    cases hpa : p a with
    | false =>
      have h2 : selectOldest p rest = some r := by simpa [selectOldest, hpa] using h
      obtain ⟨hm, hp⟩ := ih h2
      exact ⟨List.mem_cons_of_mem _ hm, hp⟩
    | true =>
      have h2 : olderOpt a (selectOldest p rest) = r := by
        simpa [selectOldest, hpa] using h
      cases hrest : selectOldest p rest with
      | none =>
        rw [hrest] at h2; simp [olderOpt] at h2; subst h2
        exact ⟨List.mem_cons_self _ _, hpa⟩
      | some r1 =>
        rw [hrest] at h2
        obtain ⟨hm1, hp1⟩ := ih hrest
        by_cases hlt : r1.createdAt < a.createdAt
        · rw [olderOpt, if_pos hlt] at h2; subst h2
          exact ⟨List.mem_cons_of_mem _ hm1, hp1⟩
        · rw [olderOpt, if_neg hlt] at h2; subst h2
          exact ⟨List.mem_cons_self _ _, hpa⟩

/- ===== Lemma about the fingerprint digest ===== -/

theorem sha256Hex_length (s : String) : (sha256Hex s).length = 64 := by
  show (String.mk ((List.range 64).map _)).length = 64
  simp [String.length]

/- ===== Auxiliary facts shared by the no-self-match claims ===== -/

theorem isDistinctFrom_ne {oh : Option String} {a : String}
    (h : isDistinctFrom oh (some a) = true) : oh ≠ some a := by
  cases oh with
  | none => simp
  | some b =>
    have hb : b ≠ a := by simpa [isDistinctFrom] using h
    simp [hb]

theorem atomicClaimOther_some {store : Store} {exId : Int} {sid : String} {r : Row}
    (h : (atomicClaimOther store exId sid).1 = some r) :
    r.id ≠ exId ∧ r.sessionId ≠ sid := by
  unfold atomicClaimOther at h
  cases hsel : selectOldest
      (fun c => !c.claimed && (c.id != exId) && (c.sessionId != sid)) store with
  | none => rw [hsel] at h; simp at h
  | some r0 =>
    rw [hsel] at h
    simp only [Option.some.injEq] at h
    obtain ⟨_, hp⟩ := selectOldest_spec hsel
    simp only [Bool.and_eq_true, bne_iff_ne, ne_eq] at hp
    subst h
    exact ⟨hp.1.2, hp.2⟩

theorem getExchangeSecretV5_some {store : Store} {exId : Int} {sid : String} {r : Row}
    (h : (getExchangeSecretV5 store exId sid).1 = some r) :
    r.id ≠ exId ∧ r.sessionId ≠ sid := by
  unfold getExchangeSecretV5 at h
  rcases hpair : atomicClaimOther store exId sid with ⟨o, after⟩
  rw [hpair] at h
  cases o with
  | none => simp at h
  | some row =>
    simp only at h
    have hrow : (atomicClaimOther store exId sid).1 = some row := by rw [hpair]
    unfold v5Recheck at h
    by_cases h1 : row.id = exId
    · rw [if_pos h1] at h; cases h
    · rw [if_neg h1] at h
      by_cases h2 : row.sessionId = sid
      · rw [if_pos h2] at h; cases h
      · rw [if_neg h2] at h
        have : row = r := Option.some.inj h
        subst this
        exact atomicClaimOther_some hrow

/-- Claim C1 is refuted as stated: the matching selection does not avoid the
authors own content on the fallback path.  The same-session fallback of the
claim-once revision 4 (part_000 lines 786 to 806), reached when no row of a
different session is available, returns a row authored by the requesting
session: with the table holding exactly one row, authored by session a, the
poll invocation of that revision with sentinel excluded id -1 hands the
caller of session a a row whose session is a.  The SQLite revision 2 has the
same fallback (part_000 lines 344 to 361). -/
theorem c1_counterexample :
    ((getExchangeSecretV4
        [{ id := 1, sessionId := "a", authorHash := none, createdAt := 0,
           claimed := false, claimedBy := none, textContent := some "hola mundo" }]
        (-1) "a").1.map Row.sessionId) = some "a" := by
  decide

/-- Claim C1 (amended): for every table state and requester identity, the
matching selection never returns a row whose author identity (session or
author hash) equals the requester, in the current engine (both the exchange
query and the poll query) and in every historical revision other than the
same-session fallback steps of revisions 2 and 4; those fallback steps may
return a row authored by the requester, though never the just-inserted row.
The conjuncts cover, in order, the current exchange query, the current poll
query, revision 1, revision 3, the other-session step of revision 2, the
atomic other-session claim of revisions 4 and 5, and the full revision 5
operation. -/
theorem c1_theorem (store : Store) (exId : Int) (sid aHash : String) (now : Int) (k : Nat) :
    (∀ r, getExchangeSecret store exId sid aHash now = some r →
      r.sessionId ≠ sid ∧ r.authorHash ≠ some aHash) ∧
    (∀ r, (pollOne store sid aHash now).1 = some r →
      r.sessionId ≠ sid ∧ r.authorHash ≠ some aHash) ∧
    (∀ r, getExchangeSecretV1 store exId sid = some r → r.sessionId ≠ sid) ∧
    (∀ r, getAvailableSecret store sid k = some r → r.sessionId ≠ sid) ∧
    (∀ r, sqliteGetOther store exId sid = some r → r.sessionId ≠ sid) ∧
    (∀ r, (atomicClaimOther store exId sid).1 = some r → r.sessionId ≠ sid) ∧
    (∀ r, (getExchangeSecretV5 store exId sid).1 = some r → r.sessionId ≠ sid) := by
  refine ⟨?_, ?_, ?_, ?_, ?_, ?_, ?_⟩
  · intro r h
    have hp := (selectOldest_spec h).2
    simp only [serverEligible, Bool.and_eq_true, bne_iff_ne, ne_eq] at hp
    exact ⟨hp.1.1.2, isDistinctFrom_ne hp.1.2⟩
  · intro r h
    have hp := (selectOldest_spec h).2
    simp only [pollEligible, Bool.and_eq_true, bne_iff_ne, ne_eq] at hp
    exact ⟨hp.1.1, isDistinctFrom_ne hp.1.2⟩
  · intro r h
    have hp := (selectOldest_spec h).2
    simp only [Bool.and_eq_true, bne_iff_ne, ne_eq] at hp
    exact hp.2
  · intro r h
    unfold getAvailableSecret at h
    have hm := List.get?_mem h
    have hp := (List.mem_filter.mp hm).2
    simp only [Bool.and_eq_true, bne_iff_ne, ne_eq] at hp
    exact hp.2
  · intro r h
    have hp := (selectOldest_spec h).2
    simp only [Bool.and_eq_true, bne_iff_ne, ne_eq] at hp
    exact hp.2
  · intro r h
    exact (atomicClaimOther_some h).2
  · intro r h
    exact (getExchangeSecretV5_some h).2

/-- Witness for the amended claim C1: a concrete table in which each covered
selection returns a row, together with the guaranteed inequalities obtained
by applying the theorem there. -/
theorem c1_witness :
    (getExchangeSecret
        [{ id := 1, sessionId := "a", authorHash := some "HA", createdAt := 0,
           claimed := false, claimedBy := none, textContent := some "hola mundo" }]
        99 "b" "HB" 10 =
      some { id := 1, sessionId := "a", authorHash := some "HA", createdAt := 0,
             claimed := false, claimedBy := none, textContent := some "hola mundo" }) ∧
    (("a" : String) ≠ "b" ∧
      (some "HA" : Option String) ≠ some "HB") := by
  constructor
  · decide
  · exact (c1_theorem
      [{ id := 1, sessionId := "a", authorHash := some "HA", createdAt := 0,
         claimed := false, claimedBy := none, textContent := some "hola mundo" }]
      99 "b" "HB" 10 0).1
      { id := 1, sessionId := "a", authorHash := some "HA", createdAt := 0,
        claimed := false, claimedBy := none, textContent := some "hola mundo" }
      (by decide)

/-- Claim C2 names the exchange of the claim-once revisions and fails on
both of them; the specification is explicit that double delivery must be
impossible, so this is a defect of the code.  SQLite revision (part_000
lines 324 to 365): the db.get that picks the row and the db.run UPDATE that
marks it are two separate statements and the UPDATE carries no claimed = 0
guard; in the schedule get-b, get-c, update-b, update-c both gets read the
single eligible row (first two conjuncts, both evaluated against the
initial table) and both updates succeed, the second silently overwriting
the first (third conjunct), so both callers receive the item.  Postgres CTE
revision (part_000 lines 1089 to 1104): under READ COMMITTED both
concurrent executions evaluate the CTE pick against their own snapshot of
the initial table and pick the same row (fourth and fifth conjuncts); the
execution that blocked on the row lock then re-evaluates only the join
qualifier s.id = pick.id against the updated row version, which still holds
(sixth conjunct), so it too marks the row and RETURNING hands it the same
row.  In both revisions the one eligible item is delivered to two callers
where the claim requires exactly one. -/
theorem c2_theorem :
    (sqliteGetOther
        [{ id := 1, sessionId := "a", authorHash := none, createdAt := 0,
           claimed := false, claimedBy := none, textContent := some "hola mundo" }]
        (-1) "b" =
      some { id := 1, sessionId := "a", authorHash := none, createdAt := 0,
             claimed := false, claimedBy := none, textContent := some "hola mundo" }) ∧
    (sqliteGetOther
        [{ id := 1, sessionId := "a", authorHash := none, createdAt := 0,
           claimed := false, claimedBy := none, textContent := some "hola mundo" }]
        (-1) "c" =
      some { id := 1, sessionId := "a", authorHash := none, createdAt := 0,
             claimed := false, claimedBy := none, textContent := some "hola mundo" }) ∧
    (markClaimed (markClaimed
        [{ id := 1, sessionId := "a", authorHash := none, createdAt := 0,
           claimed := false, claimedBy := none, textContent := some "hola mundo" }]
        1 "b") 1 "c" =
      [{ id := 1, sessionId := "a", authorHash := none, createdAt := 0,
         claimed := true, claimedBy := some "c", textContent := some "hola mundo" }]) ∧
    (ctePick
        [{ id := 1, sessionId := "a", authorHash := none, createdAt := 0,
           claimed := false, claimedBy := none, textContent := some "hola mundo" }]
        (-1) "b" =
      some { id := 1, sessionId := "a", authorHash := none, createdAt := 0,
             claimed := false, claimedBy := none, textContent := some "hola mundo" }) ∧
    (ctePick
        [{ id := 1, sessionId := "a", authorHash := none, createdAt := 0,
           claimed := false, claimedBy := none, textContent := some "hola mundo" }]
        (-1) "c" =
      some { id := 1, sessionId := "a", authorHash := none, createdAt := 0,
             claimed := false, claimedBy := none, textContent := some "hola mundo" }) ∧
    (epqJoinQual 1
      { id := 1, sessionId := "a", authorHash := none, createdAt := 0,
        claimed := true, claimedBy := some "b", textContent := some "hola mundo" } = true) := by
  exact ⟨by decide, by decide, by decide, by decide, by decide, by decide⟩

theorem atomicClaimAny_some {store : Store} {exId : Int} {sid : String} {r : Row}
    (h : (atomicClaimAny store exId sid).1 = some r) : r.id ≠ exId := by
  unfold atomicClaimAny at h
  cases hsel : selectOldest (fun c => !c.claimed && (c.id != exId)) store with
  | none => rw [hsel] at h; simp at h
  | some r0 =>
    rw [hsel] at h
    simp only [Option.some.injEq] at h
    obtain ⟨_, hp⟩ := selectOldest_spec hsel
    simp only [Bool.and_eq_true, bne_iff_ne, ne_eq] at hp
    subst h
    exact hp.2

/-- Claim C3: a submission that inserts the row with id x never gets x back
from the same call, in every revision of the engine.  The current engine and
revisions 1, 2, 4 and 5 exclude the id in the WHERE clause of every branch
(fallbacks included); revision 3 carries no id filter, but the inserted row
belongs to the submitting session, which its query excludes, so for it the
claim holds given that ids are unique (hfresh) and that the inserted row is
stamped with the callers session (hnew). -/
theorem c3_theorem (store : Store) (x : Int) (sid aHash : String) (now : Int) (k : Nat)
    (newRow : Row) (hfresh : ∀ c ∈ store, c.id ≠ x) (hnew : newRow.sessionId = sid) :
    (∀ r, getExchangeSecret store x sid aHash now = some r → r.id ≠ x) ∧
    (∀ r, getExchangeSecretV1 store x sid = some r → r.id ≠ x) ∧
    (∀ r, (getExchangeSecretV2 store x sid).1 = some r → r.id ≠ x) ∧
    (∀ r, (getExchangeSecretV4 store x sid).1 = some r → r.id ≠ x) ∧
    (∀ r, (getExchangeSecretV5 store x sid).1 = some r → r.id ≠ x) ∧
    (∀ r, getAvailableSecret (store ++ [newRow]) sid k = some r → r.id ≠ x) := by
  refine ⟨?_, ?_, ?_, ?_, ?_, ?_⟩
  · intro r h
    have hp := (selectOldest_spec h).2
    simp only [serverEligible, Bool.and_eq_true, bne_iff_ne, ne_eq] at hp
    exact hp.1.1.1
  · intro r h
    have hp := (selectOldest_spec h).2
    simp only [Bool.and_eq_true, bne_iff_ne, ne_eq] at hp
    exact hp.1
  · intro r h
    unfold getExchangeSecretV2 at h
    cases hg : sqliteGetOther store x sid with
    | some row =>
      rw [hg] at h
      have hp := (selectOldest_spec hg).2
      simp only [Bool.and_eq_true, bne_iff_ne, ne_eq] at hp
      have : row = r := Option.some.inj h
      subst this
      exact hp.1.2
    | none =>
      rw [hg] at h
      cases hg2 : sqliteGetAny store x with
      | some row =>
        rw [hg2] at h
        have hp := (selectOldest_spec hg2).2
        simp only [Bool.and_eq_true, bne_iff_ne, ne_eq] at hp
        have : row = r := Option.some.inj h
        subst this
        exact hp.2
      | none => rw [hg2] at h; cases h
  · intro r h
    unfold getExchangeSecretV4 at h
    rcases hpair : atomicClaimOther store x sid with ⟨o, after⟩
    rw [hpair] at h
    cases o with
    | some row =>
      simp only at h
      have : row = r := Option.some.inj h
      subst this
      exact (atomicClaimOther_some (by rw [hpair])).1
    | none =>
      simp only at h
      exact atomicClaimAny_some h
  · intro r h
    exact (getExchangeSecretV5_some h).1
  · intro r h
    unfold getAvailableSecret at h
    have hm := List.get?_mem h
    obtain ⟨hmem, hp⟩ := List.mem_filter.mp hm
    simp only [Bool.and_eq_true, bne_iff_ne, ne_eq] at hp
    rcases List.mem_append.mp hmem with hold | hnewm
    · exact hfresh r hold
    · have : r = newRow := List.mem_singleton.mp hnewm
      subst this
      exact absurd hnew hp.2

/-- Witness for claim C3: a concrete table in which the current engine, run
with excluded id 99, returns the prior row of id 1, and the theorem yields
that 1 differs from 99. -/
theorem c3_witness :
    (getExchangeSecret
        [{ id := 1, sessionId := "a", authorHash := some "HA", createdAt := 0,
           claimed := false, claimedBy := none, textContent := some "hola mundo" }]
        99 "b" "HB" 10 =
      some { id := 1, sessionId := "a", authorHash := some "HA", createdAt := 0,
             claimed := false, claimedBy := none, textContent := some "hola mundo" }) ∧
    ((1 : Int) ≠ 99) := by
  constructor
  · decide
  · exact (c3_theorem
      [{ id := 1, sessionId := "a", authorHash := some "HA", createdAt := 0,
         claimed := false, claimedBy := none, textContent := some "hola mundo" }]
      99 "b" "HB" 10 0
      { id := 99, sessionId := "b", authorHash := some "HB", createdAt := 10,
        claimed := false, claimedBy := none, textContent := some "nuevo secreto" }
      (by decide) (by decide)).1
      { id := 1, sessionId := "a", authorHash := some "HA", createdAt := 0,
        claimed := false, claimedBy := none, textContent := some "hola mundo" }
      (by decide)

/-- Claim C4 fails on the tie-break half and the specification is explicit
about the intended rule (smallest created_at, then smallest id), so this is
a defect of the code: the query orders by created_at only, with no id tie
break, and the databases leave the choice among rows of equal created_at
unspecified.  At the concrete table below, both rows pass the WHERE clause
of the current engine and share the least created_at, so the row of id 2 is
among the results the query may return (first conjunct) even though an
eligible row of equal created_at and smaller id 1 exists (remaining
conjuncts) — the smallest-id tie-break of the claim is not implemented. -/
theorem c4_theorem :
    mayReturnOldest (serverEligible 99 "b" "HB" 20)
      [{ id := 1, sessionId := "c", authorHash := some "HC", createdAt := 5,
         claimed := false, claimedBy := none, textContent := some "primero" },
       { id := 2, sessionId := "d", authorHash := some "HD", createdAt := 5,
         claimed := false, claimedBy := none, textContent := some "segundo" }]
      { id := 2, sessionId := "d", authorHash := some "HD", createdAt := 5,
        claimed := false, claimedBy := none, textContent := some "segundo" } ∧
    serverEligible 99 "b" "HB" 20
      { id := 1, sessionId := "c", authorHash := some "HC", createdAt := 5,
        claimed := false, claimedBy := none, textContent := some "primero" } = true ∧
    ({ id := 1, sessionId := "c", authorHash := some "HC", createdAt := 5,
       claimed := false, claimedBy := none, textContent := some "primero" } : Row).createdAt =
      ({ id := 2, sessionId := "d", authorHash := some "HD", createdAt := 5,
         claimed := false, claimedBy := none, textContent := some "segundo" } : Row).createdAt ∧
    ({ id := 1, sessionId := "c", authorHash := some "HC", createdAt := 5,
       claimed := false, claimedBy := none, textContent := some "primero" } : Row).id <
      ({ id := 2, sessionId := "d", authorHash := some "HD", createdAt := 5,
         claimed := false, claimedBy := none, textContent := some "segundo" } : Row).id := by
  exact ⟨by decide, by decide, by decide, by decide⟩

/-- Claim C5: the current engine never returns a row younger than the three
second grace window (INTERVAL of 3 seconds in the WHERE clause), neither on
the exchange query nor on the poll query. -/
theorem c5_theorem (store : Store) (exId : Int) (sid aHash : String) (now : Int) (r : Row) :
    (getExchangeSecret store exId sid aHash now = some r → ¬ (now - r.createdAt < 3)) ∧
    ((pollOne store sid aHash now).1 = some r → ¬ (now - r.createdAt < 3)) := by
  constructor
  · intro h
    have hp := (selectOldest_spec h).2
    simp only [serverEligible, Bool.and_eq_true, decide_eq_true_eq] at hp
    have := hp.2
    omega
  · intro h
    have hp := (selectOldest_spec h).2
    simp only [pollEligible, Bool.and_eq_true, decide_eq_true_eq] at hp
    have := hp.2
    omega

/-- Witness for claim C5: the selection succeeds on a seven second old row,
and the theorem certifies the returned row is older than the window. -/
theorem c5_witness :
    (getExchangeSecret
        [{ id := 1, sessionId := "a", authorHash := some "HA", createdAt := 3,
           claimed := false, claimedBy := none, textContent := some "hola mundo" }]
        99 "b" "HB" 10 =
      some { id := 1, sessionId := "a", authorHash := some "HA", createdAt := 3,
             claimed := false, claimedBy := none, textContent := some "hola mundo" }) ∧
    ¬ ((10 : Int) - 3 < 3) := by
  constructor
  · decide
  · exact (c5_theorem
      [{ id := 1, sessionId := "a", authorHash := some "HA", createdAt := 3,
         claimed := false, claimedBy := none, textContent := some "hola mundo" }]
      99 "b" "HB" 10
      { id := 1, sessionId := "a", authorHash := some "HA", createdAt := 3,
        claimed := false, claimedBy := none, textContent := some "hola mundo" }).1
      (by decide)

/-- Claim C6 fails on the excluded-id half and the inline source comment
(never return the same id, just in case) shows the code intends the check,
so this is a defect of the code: the source compares row.id === exId where
row.id is the int8 column delivered by the node-postgres driver as a
decimal string and exId is a javascript number, and strict equality across
distinct runtime types is always false (first conjunct), so at the failing
input — a claimed row carrying the excluded id 7 — the re-check as the
source executes it hands the row back (second conjunct) where the claim
and the specification require the no-match result, the behaviour of the
check as specified (third conjunct).  The session half of the source check
compares string with string and does fire (fourth conjunct). -/
theorem c6_theorem :
    (jsStrictEq (JsValue.str (pgInt8String 7)) (JsValue.num 7) = false) ∧
    (v5RecheckJs 7 "b"
        { id := 7, sessionId := "a", authorHash := none, createdAt := 0,
          claimed := true, claimedBy := some "b", textContent := some "hola mundo" } =
      some { id := 7, sessionId := "a", authorHash := none, createdAt := 0,
             claimed := true, claimedBy := some "b", textContent := some "hola mundo" }) ∧
    (v5Recheck 7 "b"
        { id := 7, sessionId := "a", authorHash := none, createdAt := 0,
          claimed := true, claimedBy := some "b", textContent := some "hola mundo" } = none) ∧
    (v5RecheckJs 99 "a"
        { id := 1, sessionId := "a", authorHash := none, createdAt := 0,
          claimed := true, claimedBy := some "a", textContent := some "hola mundo" } = none) := by
  exact ⟨by decide, by decide, by decide, by decide⟩

/-- Claim C7 is refuted as stated: with two eligible rows sharing the least
created_at, both are results the poll query may return (the query orders by
created_at only and the databases leave the choice among equal sort keys
unspecified), so two polls with no intervening insertion may return
distinct items; the specification itself only says repeated polls may
return the same item. -/
theorem c7_counterexample :
    mayReturnOldest (pollEligible "b" "HB" 20)
      [{ id := 1, sessionId := "c", authorHash := some "HC", createdAt := 5,
         claimed := false, claimedBy := none, textContent := some "primero" },
       { id := 2, sessionId := "d", authorHash := some "HD", createdAt := 5,
         claimed := false, claimedBy := none, textContent := some "segundo" }]
      { id := 1, sessionId := "c", authorHash := some "HC", createdAt := 5,
        claimed := false, claimedBy := none, textContent := some "primero" } ∧
    mayReturnOldest (pollEligible "b" "HB" 20)
      [{ id := 1, sessionId := "c", authorHash := some "HC", createdAt := 5,
         claimed := false, claimedBy := none, textContent := some "primero" },
       { id := 2, sessionId := "d", authorHash := some "HD", createdAt := 5,
         claimed := false, claimedBy := none, textContent := some "segundo" }]
      { id := 2, sessionId := "d", authorHash := some "HD", createdAt := 5,
        claimed := false, claimedBy := none, textContent := some "segundo" } ∧
    ({ id := 1, sessionId := "c", authorHash := some "HC", createdAt := 5,
       claimed := false, claimedBy := none, textContent := some "primero" } : Row) ≠
      { id := 2, sessionId := "d", authorHash := some "HD", createdAt := 5,
        claimed := false, claimedBy := none, textContent := some "segundo" } := by
  exact ⟨by decide, by decide, by decide⟩

/-- Claim C7 (amended): under the permanent policy the poll handler mutates
no item state (the table after a poll equals the table before it), and two
polls by the same identity with no intervening insertion — the second at
the same or any later time — return items of the same, least creation time;
when the oldest eligible item is unique, both polls return that same item.
When several eligible items tie for the least created_at the query may
return any of them.  Stated against the nondeterministic reading of the
query: r1 is any possible result of the first poll, r2 any possible result
of the second. -/
theorem c7_theorem (store : Store) (sid aHash : String) (now1 now2 : Int) (r1 r2 : Row) :
    (pollOne store sid aHash now1).2 = store ∧
    (mayReturnOldest (pollEligible sid aHash now1) store r1 → now1 ≤ now2 →
      mayReturnOldest (pollEligible sid aHash now2) store r2 →
      r1.createdAt = r2.createdAt ∧
      ((∀ c ∈ store, pollEligible sid aHash now1 c = true →
          c.createdAt = r1.createdAt → c = r1) → r2 = r1)) := by
  constructor
  · rfl
  · intro h1 hle h2
    obtain ⟨hm1, hmin1⟩ := h1
    obtain ⟨hm2, hmin2⟩ := h2
    obtain ⟨hm1s, hp1⟩ := List.mem_filter.mp hm1
    obtain ⟨hm2s, hp2⟩ := List.mem_filter.mp hm2
    have hp1d := hp1
    have hp2d := hp2
    simp only [pollEligible, Bool.and_eq_true, decide_eq_true_eq] at hp1d hp2d
    have hp1n2 : pollEligible sid aHash now2 r1 = true := by
      simp only [pollEligible, Bool.and_eq_true, decide_eq_true_eq]
      exact ⟨hp1d.1, by omega⟩
    have hr1mem2 : r1 ∈ store.filter (pollEligible sid aHash now2) :=
      List.mem_filter.mpr ⟨hm1s, hp1n2⟩
    have h21 : r2.createdAt ≤ r1.createdAt := hmin2 r1 hr1mem2
    by_cases hage : r2.createdAt < now1 - 3
    · have hp2n1 : pollEligible sid aHash now1 r2 = true := by
        simp only [pollEligible, Bool.and_eq_true, decide_eq_true_eq]
        exact ⟨hp2d.1, hage⟩
      have hr2mem1 : r2 ∈ store.filter (pollEligible sid aHash now1) :=
        List.mem_filter.mpr ⟨hm2s, hp2n1⟩
      have h12 : r1.createdAt ≤ r2.createdAt := hmin1 r2 hr2mem1
      have hca : r1.createdAt = r2.createdAt := le_antisymm h12 h21
      refine ⟨hca, fun huniq => ?_⟩
      exact huniq r2 hm2s hp2n1 hca.symm
    · exact absurd (lt_of_le_of_lt h21 hp1d.2) hage

/-- Witness for the amended claim C7: a concrete table with one eligible
row; the poll leaves the table unchanged and the theorem, applied to the
poll at time 10 and the poll at time 20, yields that both return the same
unique oldest row. -/
theorem c7_witness :
    ((pollOne
        [{ id := 1, sessionId := "a", authorHash := some "HA", createdAt := 0,
           claimed := false, claimedBy := none, textContent := some "hola mundo" }]
        "b" "HB" 10).2 =
      [{ id := 1, sessionId := "a", authorHash := some "HA", createdAt := 0,
         claimed := false, claimedBy := none, textContent := some "hola mundo" }]) ∧
    ({ id := 1, sessionId := "a", authorHash := some "HA", createdAt := 0,
       claimed := false, claimedBy := none, textContent := some "hola mundo" } : Row) =
      { id := 1, sessionId := "a", authorHash := some "HA", createdAt := 0,
        claimed := false, claimedBy := none, textContent := some "hola mundo" } := by
  constructor
  · exact (c7_theorem
      [{ id := 1, sessionId := "a", authorHash := some "HA", createdAt := 0,
         claimed := false, claimedBy := none, textContent := some "hola mundo" }]
      "b" "HB" 10 20
      { id := 1, sessionId := "a", authorHash := some "HA", createdAt := 0,
        claimed := false, claimedBy := none, textContent := some "hola mundo" }
      { id := 1, sessionId := "a", authorHash := some "HA", createdAt := 0,
        claimed := false, claimedBy := none, textContent := some "hola mundo" }).1
  · exact ((c7_theorem
      [{ id := 1, sessionId := "a", authorHash := some "HA", createdAt := 0,
         claimed := false, claimedBy := none, textContent := some "hola mundo" }]
      "b" "HB" 10 20
      { id := 1, sessionId := "a", authorHash := some "HA", createdAt := 0,
        claimed := false, claimedBy := none, textContent := some "hola mundo" }
      { id := 1, sessionId := "a", authorHash := some "HA", createdAt := 0,
        claimed := false, claimedBy := none, textContent := some "hola mundo" }).2
      (by decide) (by decide) (by decide)).2 (by decide)

/-- Claim C8: a submission whose trimmed text is shorter than 5 or longer
than 1000 characters — character counts being UTF-16 code units, which is
what the javascript length property the route tests counts — is rejected
with the length bound error and the table is unchanged; a trimmed text
within the bounds passes the length check (it may still be rejected by the
content policy, which runs afterwards). -/
theorem c8_theorem (policy : String → Bool) (store : Store) (raw : String)
    (newId : Int) (sid aHash : String) (now : Int) :
    ((jsLength (jsTrim raw) < 5 ∨ jsLength (jsTrim raw) > 1000) →
      submitText policy store raw newId sid aHash now = (.lengthError, store)) ∧
    (5 ≤ jsLength (jsTrim raw) → jsLength (jsTrim raw) ≤ 1000 →
      (submitText policy store raw newId sid aHash now).1 ≠ .lengthError) := by
  constructor
  · intro h
    unfold submitText
    rw [if_pos (Or.inr h)]
  · intro h5 h1000
    unfold submitText
    have hcond : ¬ (jsTrim raw = "" ∨ jsLength (jsTrim raw) < 5 ∨
        jsLength (jsTrim raw) > 1000) := by
      push_neg
      refine ⟨?_, by omega, by omega⟩
      intro he
      rw [he] at h5
      exact absurd h5 (by decide)
    rw [if_neg hcond]
    by_cases hp : policy (jsTrim raw)
    · rw [if_pos hp]
      exact fun hx => TextSubmitOutcome.noConfusion hx
    · rw [if_neg hp]
      exact fun hx => TextSubmitOutcome.noConfusion hx

/-- Witness for claim C8: a text padded with no-break spaces trims to the
two character string si and is rejected with the table unchanged — the
padding characters are stripped exactly as the route strips them — and a
ten character text passes the length check. -/
theorem c8_witness :
    (submitText (fun _ => false) [] "\u00A0\u00A0si\u00A0\u00A0" 1 "a" "HA" 10 =
      (.lengthError, [])) ∧
    ((submitText (fun _ => false) [] "hola mundo" 1 "a" "HA" 10).1 ≠ .lengthError) := by
  constructor
  · exact (c8_theorem (fun _ => false) [] "\u00A0\u00A0si\u00A0\u00A0" 1 "a" "HA" 10).1
      (Or.inl (by decide))
  · exact (c8_theorem (fun _ => false) [] "hola mundo" 1 "a" "HA" 10).2
      (by decide) (by decide)

/-- Claim C9: the author fingerprint is a total deterministic function of
the request signals: it always produces a digest of the fixed width of 64
hexadecimal characters, for every combination of present and absent
optional signals, and identical signals yield identical digests under a
fixed salt. -/
theorem c9_theorem (envSalt : Option String) (sig sig2 : ReqSignals) :
    (authorFingerprint envSalt sig).length = 64 ∧
    (sig2 = sig → authorFingerprint envSalt sig2 = authorFingerprint envSalt sig) := by
  constructor
  · exact sha256Hex_length _
  · intro h
    rw [h]

/-- Witness for claim C9: with every optional signal absent and no salt in
the environment, the fingerprint is still produced, has width 64, and is
reproducible. -/
theorem c9_witness :
    (authorFingerprint none
      { xForwardedFor := none, ip := none, userAgent := none }).length = 64 ∧
    authorFingerprint none { xForwardedFor := none, ip := none, userAgent := none } =
      authorFingerprint none { xForwardedFor := none, ip := none, userAgent := none } :=
  ⟨(c9_theorem none { xForwardedFor := none, ip := none, userAgent := none }
      { xForwardedFor := none, ip := none, userAgent := none }).1,
   (c9_theorem none { xForwardedFor := none, ip := none, userAgent := none }
      { xForwardedFor := none, ip := none, userAgent := none }).2 rfl⟩

/-- Claim C10: a legacy row whose author_hash column is NULL satisfies the
IS DISTINCT FROM exclusion against every requester fingerprint, so for any
requester on a different session (in particular the rows own author using
another session, whose current fingerprint may be any value of aHash) the
row passes the full eligibility predicate of the current engine as soon as
it clears the id exclusion and the grace window. -/
theorem c10_theorem (c : Row) (exId : Int) (sid aHash : String) (now : Int)
    (hnull : c.authorHash = none) (hsess : c.sessionId ≠ sid) :
    isDistinctFrom c.authorHash (some aHash) = true ∧
    (c.id ≠ exId → c.createdAt < now - 3 → serverEligible exId sid aHash now c = true) := by
  constructor
  · rw [hnull]; rfl
  · intro hid hage
    simp only [serverEligible, Bool.and_eq_true, bne_iff_ne, ne_eq, decide_eq_true_eq]
    exact ⟨⟨⟨hid, hsess⟩, by rw [hnull]; rfl⟩, hage⟩

/-- Witness for claim C10: a concrete NULL-hash legacy row is eligible to a
requester on another session even when the requester fingerprint HF is the
one its author would produce today. -/
theorem c10_witness :
    (isDistinctFrom (none : Option String) (some "HF") = true) ∧
    serverEligible 99 "s2" "HF" 10
      { id := 1, sessionId := "s1", authorHash := none, createdAt := 0,
        claimed := false, claimedBy := none, textContent := some "viejo secreto" } = true := by
  constructor
  · exact (c10_theorem
      { id := 1, sessionId := "s1", authorHash := none, createdAt := 0,
        claimed := false, claimedBy := none, textContent := some "viejo secreto" }
      99 "s2" "HF" 10 rfl (by decide)).1
  · exact (c10_theorem
      { id := 1, sessionId := "s1", authorHash := none, createdAt := 0,
        claimed := false, claimedBy := none, textContent := some "viejo secreto" }
      99 "s2" "HF" 10 rfl (by decide)).2 (by decide) (by decide)

end Secretos
